import Mathlib

/-!
Shallow embedding of two hooks from the usehooks-ts repository:

* `useAsync` (packages/usehooks-ts/src/useAsync): an async-operation state
  tracker with fields `status`, `data`, `error`, a mounted-ref liveness flag,
  and actions `execute` / `reset`.
* `useCopyToClipboard` (packages/usehooks-ts/src/useCopyToClipboard): a
  clipboard writer with a `copiedText` field and a `copy(text, options?)`
  action.

JavaScript thrown values are modelled by `Thrown`: either an `Error` object
(carrying its `message`) or any other value, carrying its string form
`String(v)`.  Both hooks normalize a thrown value with the same idiom
`err instanceof Error ? err : new Error(String(err))`, embedded as
`normalizeError`.

The single-threaded event-loop semantics is embedded by splitting each async
action at its `await` points: the synchronous prefix and each settlement
continuation become explicit state-transition functions, and a run of the
action is their composition.  Statements that may throw are embedded in
`Except Thrown`; `try`/`catch` becomes a `match` on the `Except`.
-/

/-- A JavaScript `Error` object, identified by its `message` string. -/
structure JSError where
  message : String
deriving DecidableEq, Repr

/-- A JavaScript thrown value: either already an `Error` object, or an
arbitrary non-`Error` value represented by its string form `String(v)`. -/
inductive Thrown where
  | errObj (e : JSError)
  | nonError (stringForm : String)
deriving DecidableEq, Repr

/-- The normalization idiom `err instanceof Error ? err : new Error(String(err))`
(useAsync.md line 328, useCopyToClipboard.ts line 92). -/
def normalizeError : Thrown → JSError
  | .errObj e => e
  | .nonError s => ⟨s⟩

/-- `type Status = 'idle' | 'loading' | 'success' | 'error'` (useAsync.md line 259). -/
inductive Status where
  | idle
  | loading
  | success
  | error
deriving DecidableEq, Repr, BEq

/-- The state owned by one `useAsync` instance: the three `useState` cells
`status`, `data`, `error` (useAsync.md lines 303-305) together with the
`isMountedRef` liveness flag (line 308). -/
structure TrackerState (T : Type) where
  status : Status
  data : Option T
  error : Option JSError
  mounted : Bool

/-- The synchronous prefix of `execute` before the `await`:
`setStatus('loading'); setData(null); setError(null)` (useAsync.md lines 315-317). -/
def executeStart {T : Type} (s : TrackerState T) : TrackerState T :=
  { s with status := .loading, data := none, error := none }

/-- The settlement continuation of `execute` for a resolved operation
(useAsync.md lines 322-325): applied only when `isMountedRef.current` holds. -/
def settleSuccess {T : Type} (r : T) (s : TrackerState T) : TrackerState T :=
  if s.mounted then { s with data := some r, status := .success } else s

/-- The `catch` block of `execute` (useAsync.md lines 326-331): normalizes the
thrown value and records it, only when `isMountedRef.current` holds. -/
def settleFailure {T : Type} (v : Thrown) (s : TrackerState T) : TrackerState T :=
  if s.mounted then { s with error := some (normalizeError v), status := .error } else s

/-- How the wrapped zero-argument operation settles: resolves with a value or
rejects with an arbitrary thrown value. -/
inductive Outcome (T : Type) where
  | success (r : T)
  | failure (v : Thrown)

/-- Settlement of `execute` for a given outcome of the wrapped operation. -/
def settle {T : Type} (o : Outcome T) (s : TrackerState T) : TrackerState T :=
  match o with
  | .success r => settleSuccess r s
  | .failure v => settleFailure v s

/-- A full run of `execute` (useAsync.md lines 314-332) in which the wrapped
operation settles with outcome `o` and no other event intervenes between the
synchronous prefix and the settlement. -/
def executeRun {T : Type} (o : Outcome T) (s : TrackerState T) : TrackerState T :=
  settle o (executeStart s)

/-- The `try` block of `execute` (useAsync.md lines 319-325): the `await` of a
rejecting operation raises the thrown value as an exception. -/
def executeTryBlock {T : Type} (o : Outcome T) (s1 : TrackerState T) :
    Except Thrown (TrackerState T) :=
  match o with
  | .success r => .ok (settleSuccess r s1)
  | .failure v => .error v

/-- `execute` with exception propagation made explicit: the synchronous prefix,
then the `try`/`catch` (useAsync.md lines 314-332).  An `Except.error` result
would mean the returned promise rejects. -/
def executeExc {T : Type} (o : Outcome T) (s : TrackerState T) :
    Except Thrown (TrackerState T) :=
  let s1 := executeStart s
  match executeTryBlock o s1 with
  | .ok s2 => .ok s2
  | .error v => .ok (settleFailure v s1)

/-- `reset` (useAsync.md lines 334-338):
`setStatus('idle'); setData(null); setError(null)`. -/
def reset {T : Type} (s : TrackerState T) : TrackerState T :=
  { s with status := .idle, data := none, error := none }

/-- The cleanup of the mount effect (useAsync.md lines 347-349):
`isMountedRef.current = false`. -/
def teardown {T : Type} (s : TrackerState T) : TrackerState T :=
  { s with mounted := false }

/-- The observable value returned by `useAsync` (useAsync.md lines 262-275,
minus the two functions). -/
structure UseAsyncReturn (T : Type) where
  data : Option T
  error : Option JSError
  status : Status
  loading : Bool

/-- Construction of the hook's return value (useAsync.md lines 352-359):
`loading: status === 'loading'`. -/
def mkUseAsyncReturn {T : Type} (s : TrackerState T) : UseAsyncReturn T :=
  { data := s.data, error := s.error, status := s.status,
    loading := s.status == Status.loading }

/-- C2: if the owning consumer has been torn down (`isMountedRef.current =
false`) when the wrapped operation settles, the settlement mutates none of
`status`, `data`, `error`: the state after the late settlement equals the
state after teardown. -/
theorem execute_settlement_after_teardown_is_noop :
    ∀ (T : Type) (o : Outcome T) (s : TrackerState T),
      settle o (teardown s) = teardown s := by
  intro T o s
  cases o with
  | success r => simp [settle, settleSuccess, teardown]
  | failure v => simp [settle, settleFailure, teardown]

/-- C3: an `execute` run whose wrapped operation resolves with `r` while the
consumer is still mounted ends with `status = success`, `data = r`,
`error = absent`, from any prior state. -/
theorem execute_success_final_state :
    ∀ (T : Type) (r : T) (st : Status) (d : Option T) (e : Option JSError),
      (executeRun (.success r) ⟨st, d, e, true⟩).status = Status.success
      ∧ (executeRun (.success r) ⟨st, d, e, true⟩).data = some r
      ∧ (executeRun (.success r) ⟨st, d, e, true⟩).error = none := by
  intro T r st d e
  refine ⟨?_, ?_, ?_⟩ <;>
    simp [executeRun, settle, settleSuccess, executeStart]

/-- C4: an `execute` run whose wrapped operation rejects with `v` while the
consumer is still mounted ends with `status = error`, `data = absent`, and
`error` the normalized form of `v`: `v` itself when `v` is an `Error` object,
otherwise an `Error` whose message is the string form of `v`. -/
theorem execute_failure_final_state :
    ∀ (T : Type) (v : Thrown) (st : Status) (d : Option T) (e : Option JSError),
      (executeRun (.failure v) ⟨st, d, e, true⟩).status = Status.error
      ∧ (executeRun (.failure v) ⟨st, d, e, true⟩).data = none
      ∧ (executeRun (.failure v) ⟨st, d, e, true⟩).error = some (normalizeError v)
      ∧ (∀ eo : JSError, normalizeError (.errObj eo) = eo)
      ∧ (∀ str : String, normalizeError (.nonError str) = ⟨str⟩) := by
  intro T v st d e
  refine ⟨?_, ?_, ?_, fun eo => rfl, fun str => rfl⟩ <;>
    simp [executeRun, settle, settleFailure, executeStart]

/-- C5: the synchronous prefix of every `execute` call, run before the wrapped
operation is invoked, sets `status = loading` and clears `data` and `error`,
from any prior state (in particular after a prior success); an `execute` run
is the settlement applied after this prefix. -/
theorem execute_start_transient_state :
    ∀ (T : Type) (s : TrackerState T),
      (executeStart s).status = Status.loading
      ∧ (executeStart s).data = none
      ∧ (executeStart s).error = none
      ∧ ∀ (o : Outcome T), executeRun o s = settle o (executeStart s) := by
  intro T s
  exact ⟨rfl, rfl, rfl, fun o => rfl⟩

/-- C6: `reset` yields `status = idle`, `data = absent`, `error = absent` from
every prior state. -/
theorem reset_final_state :
    ∀ (T : Type) (s : TrackerState T),
      (reset s).status = Status.idle
      ∧ (reset s).data = none
      ∧ (reset s).error = none := by
  intro T s
  exact ⟨rfl, rfl, rfl⟩

/-- C7: in every observable tracker state, the exposed `loading` field holds
exactly when `status` is `loading`; it is computed from `status` at return
time and is not a field of the stored state. -/
theorem loading_is_derived_from_status :
    ∀ (T : Type) (s : TrackerState T),
      ((mkUseAsyncReturn s).loading = true ↔ s.status = Status.loading)
      ∧ (mkUseAsyncReturn s).status = s.status := by
  intro T s
  constructor
  · simp only [mkUseAsyncReturn]
    cases s.status <;> decide
  · rfl

/-- Which of the three branches of `copy` ran (useCopyToClipboard.ts lines
67-76 capability check, 79-87 success path, 88-99 catch). -/
inductive CopyBranch where
  | capMissing
  | writeSuccess
  | writeFailure
deriving DecidableEq, Repr

/-- `CopyOptions` (useCopyToClipboard.ts lines 11-22), recording only whether
each optional callback is supplied; the callbacks themselves are external. -/
structure CopyOptions where
  onSuccess : Bool
  onError : Bool
deriving DecidableEq, Repr

/-- Whether `options?.onSuccess` is a supplied callback. -/
def hasOnSuccess : Option CopyOptions → Bool
  | some c => c.onSuccess
  | none => false

/-- Whether `options?.onError` is a supplied callback. -/
def hasOnError : Option CopyOptions → Bool
  | some c => c.onError
  | none => false

/-- Behaviour of `navigator.clipboard.writeText(text)`: the returned promise
resolves, or rejects with an arbitrary thrown value. -/
inductive WriteBehavior where
  | succeeds
  | fails (v : Thrown)
deriving DecidableEq, Repr

/-- The observable outcome of one `copy(text, options?)` call: the resolved
boolean, the `copiedText` state cell after the call, the list of
`setCopiedText` assignments the call performed, the arguments of each
`onSuccess` and `onError` invocation, the `writeText` invocations, and the
branch taken. -/
structure CopyOutcome where
  returnValue : Bool
  copiedText : Option String
  setCopiedTextCalls : List (Option String)
  onSuccessCalls : List String
  onErrorCalls : List (JSError × String)
  writeCalls : List String
  branch : CopyBranch
deriving DecidableEq, Repr

/-- The capability-missing branch of `copy` (useCopyToClipboard.ts lines
67-76): build `new Error('Clipboard not supported')`, call `onError` if
supplied, return `false`; `setCopiedText` is never called, so the state cell
keeps its prior value `st`. -/
def copyCapMissingBranch (st : Option String) (text : String)
    (options : Option CopyOptions) : CopyOutcome :=
  { returnValue := false
    copiedText := st
    setCopiedTextCalls := []
    onSuccessCalls := []
    onErrorCalls := if hasOnError options then [(⟨"Clipboard not supported"⟩, text)] else []
    writeCalls := []
    branch := .capMissing }

/-- The success path of the `try` block (useCopyToClipboard.ts lines 80-87):
after `writeText` resolves, `setCopiedText(text)`, call `onSuccess` if
supplied, return `true`. -/
def copySuccessBranch (text : String) (options : Option CopyOptions) : CopyOutcome :=
  { returnValue := true
    copiedText := some text
    setCopiedTextCalls := [some text]
    onSuccessCalls := if hasOnSuccess options then [text] else []
    onErrorCalls := []
    writeCalls := [text]
    branch := .writeSuccess }

/-- The `catch` block of `copy` (useCopyToClipboard.ts lines 88-99):
`setCopiedText(null)`, normalize the thrown value, call `onError` if supplied,
return `false`.  The `writeText` call was attempted before it threw. -/
def copyFailureBranch (v : Thrown) (text : String)
    (options : Option CopyOptions) : CopyOutcome :=
  { returnValue := false
    copiedText := none
    setCopiedTextCalls := [none]
    onSuccessCalls := []
    onErrorCalls := if hasOnError options then [(normalizeError v, text)] else []
    writeCalls := [text]
    branch := .writeFailure }

/-- One `copy(text, options?)` call (useCopyToClipboard.ts lines 66-100).
`clip` is whether `navigator?.clipboard` exists, `write` the behaviour of
`navigator.clipboard.writeText(text)`, `st` the `copiedText` state cell
before the call. -/
def copy (clip : Bool) (write : WriteBehavior) (st : Option String)
    (text : String) (options : Option CopyOptions) : CopyOutcome :=
  if clip = false then
    copyCapMissingBranch st text options
  else
    match write with
    | .succeeds => copySuccessBranch text options
    | .fails v => copyFailureBranch v text options

/-- The `try` block of `copy` with exception propagation made explicit
(useCopyToClipboard.ts lines 79-87): the `await` of a rejecting `writeText`
raises the thrown value. -/
def copyTryBlock (write : WriteBehavior) (text : String)
    (options : Option CopyOptions) : Except Thrown CopyOutcome :=
  match write with
  | .succeeds => .ok (copySuccessBranch text options)
  | .fails v => .error v

/-- `copy` with exception propagation made explicit (useCopyToClipboard.ts
lines 66-100): the capability check, then the `try`/`catch`.  An
`Except.error` result would mean the returned promise rejects. -/
def copyExc (clip : Bool) (write : WriteBehavior) (st : Option String)
    (text : String) (options : Option CopyOptions) : Except Thrown CopyOutcome :=
  if clip = false then
    .ok (copyCapMissingBranch st text options)
  else
    match copyTryBlock write text options with
    | .ok r => .ok r
    | .error v => .ok (copyFailureBranch v text options)

/-- C1 (amended): `copiedText` is assigned `text` only by the verified-success
branch; a failing write clears `copiedText` to absent; a call with the
platform capability missing leaves `copiedText` unchanged. -/
theorem copiedText_frame :
    ∀ (write : WriteBehavior) (v : Thrown) (st : Option String) (text : String)
      (options : Option CopyOptions),
      (copy true .succeeds st text options).copiedText = some text
      ∧ (copy true .succeeds st text options).setCopiedTextCalls = [some text]
      ∧ (copy true (.fails v) st text options).copiedText = none
      ∧ (copy false write st text options).copiedText = st
      ∧ (copy false write st text options).setCopiedTextCalls = []
      ∧ (∀ clip : Bool,
          (copy clip write st text options).setCopiedTextCalls = [some text]
          ↔ clip = true ∧ write = .succeeds) := by
  intro write v st text options
  refine ⟨rfl, rfl, rfl, rfl, rfl, ?_⟩
  intro clip
  cases clip <;> cases write <;>
    simp [copy, copyCapMissingBranch, copySuccessBranch, copyFailureBranch]

/-- C1 counterexample: with prior `copiedText = "old"`, a failing write sets
`copiedText` to absent rather than leaving it unchanged, and a call made while
the capability is missing leaves it at `"old"` rather than resetting it to
absent — the opposite of the claimed frame condition on both failure paths. -/
theorem copiedText_frame_claim_counterexample :
    (copy true (WriteBehavior.fails (Thrown.nonError "boom")) (some "old") "new"
        none).copiedText = none
    ∧ (copy true (WriteBehavior.fails (Thrown.nonError "boom")) (some "old") "new"
        none).copiedText ≠ some "old"
    ∧ (copy false WriteBehavior.succeeds (some "old") "new" none).copiedText = some "old"
    ∧ (copy false WriteBehavior.succeeds (some "old") "new" none).copiedText ≠ none := by
  decide

/-- C8: a `copy` call made while `navigator?.clipboard` is absent resolves to
`false`, invokes `onError` exactly once — when supplied — with the
`Clipboard not supported` error and the text, never invokes `onSuccess`, and
performs no `writeText` call. -/
theorem copy_capability_missing_behaviour :
    ∀ (write : WriteBehavior) (st : Option String) (text : String)
      (options : Option CopyOptions),
      (copy false write st text options).returnValue = false
      ∧ (copy false write st text options).onErrorCalls
          = (if hasOnError options then [(⟨"Clipboard not supported"⟩, text)] else [])
      ∧ (copy false write st text options).onSuccessCalls = []
      ∧ (copy false write st text options).writeCalls = [] := by
  intro write st text options
  exact ⟨rfl, rfl, rfl, rfl⟩

/-- C9: neither `execute` nor `copy` lets a failure escape to its caller: for
every state and every behaviour of the wrapped operation or clipboard write
(including rejection with arbitrary non-`Error` values), the
exception-explicit embeddings return `Except.ok` of the pure transition
result, so failures surface only through the `error` field, the `onError`
callback and the boolean result. -/
theorem execute_and_copy_never_reject :
    (∀ (T : Type) (o : Outcome T) (s : TrackerState T),
        executeExc o s = Except.ok (executeRun o s))
    ∧ (∀ (clip : Bool) (write : WriteBehavior) (st : Option String)
        (text : String) (options : Option CopyOptions),
        copyExc clip write st text options
          = Except.ok (copy clip write st text options)) := by
  constructor
  · intro T o s
    cases o <;> rfl
  · intro clip write st text options
    cases clip <;> cases write <;> rfl

/-- C10: every settling `copy` call takes exactly one of the three branches,
and the branch determines all outcomes consistently: the call resolves `true`
iff the success branch ran; a supplied `onSuccess` is invoked exactly when the
success branch ran; a supplied `onError` is invoked exactly once iff the call
resolves `false`; `copiedText` is assigned `text` exactly when the success
branch ran; and `onSuccess` and `onError` are never both invoked. -/
theorem copy_branch_consistency :
    ∀ (clip : Bool) (write : WriteBehavior) (st : Option String)
      (text : String) (options : Option CopyOptions),
      ((copy clip write st text options).branch = CopyBranch.capMissing
        ∨ (copy clip write st text options).branch = CopyBranch.writeFailure
        ∨ (copy clip write st text options).branch = CopyBranch.writeSuccess)
      ∧ ((copy clip write st text options).returnValue = true
          ↔ (copy clip write st text options).branch = CopyBranch.writeSuccess)
      ∧ (copy clip write st text options).onSuccessCalls
          = (if hasOnSuccess options = true
                ∧ (copy clip write st text options).branch = CopyBranch.writeSuccess
             then [text] else [])
      ∧ (copy clip write st text options).onErrorCalls.length
          = (if hasOnError options = true
                ∧ (copy clip write st text options).returnValue = false
             then 1 else 0)
      ∧ ((copy clip write st text options).setCopiedTextCalls = [some text]
          ↔ (copy clip write st text options).branch = CopyBranch.writeSuccess)
      ∧ ((copy clip write st text options).onSuccessCalls = []
          ∨ (copy clip write st text options).onErrorCalls = []) := by
  intro clip write st text options
  rcases options with _ | ⟨os, oe⟩
  · cases clip <;> cases write <;>
      refine ⟨?_, ?_, ?_, ?_, ?_, ?_⟩ <;>
      simp [copy, copyCapMissingBranch, copySuccessBranch, copyFailureBranch,
        hasOnSuccess, hasOnError]
  · cases clip <;> cases write <;> cases os <;> cases oe <;>
      refine ⟨?_, ?_, ?_, ?_, ?_, ?_⟩ <;>
      simp [copy, copyCapMissingBranch, copySuccessBranch, copyFailureBranch,
        hasOnSuccess, hasOnError]
